import Mathlib

/-!
# Lights HAL for sysfs LEDs: discovery and state application

A shallow embedding of `Lights.cpp`.  The device files are modelled by an
observable environment (`Sysfs`: which files open, what they contain, whether
data handed to a stream reaches the file) and a mutable part (`Files`: the
content of every path, together with the log of the stream operations that
were performed).  Every C++ function is a Lean function of the same name that
passes the `Files` state explicitly.
-/

set_option autoImplicit false
set_option linter.dupNamespace false

/-! ## Types of the AIDL interface -/

/-- `FlashMode` of the light interface. -/
inductive FlashMode where
  | NONE
  | HARDWARE
  | TIMED
  deriving DecidableEq, Repr

/-- `LightType` of the light interface. -/
inductive LightType where
  | BACKLIGHT
  | KEYBOARD
  | BUTTONS
  | BATTERY
  | NOTIFICATIONS
  | ATTENTION
  | BLUETOOTH
  | WIFI
  | MICROPHONE
  | CAMERA
  deriving DecidableEq, Repr

/-- `HwLight`: the identity record of a light (`int id`, `int ordinal`, `type`). -/
structure HwLight where
  id : Int
  ordinal : Int
  type : LightType
  deriving DecidableEq, Repr

/-- `HwLightState`: the requested state; the fields read by this file. -/
structure HwLightState where
  color : Int
  flashMode : FlashMode
  flashOnMs : Int
  flashOffMs : Int
  deriving DecidableEq, Repr

/-- `EX_UNSUPPORTED_OPERATION` of the binder status codes. -/
def EX_UNSUPPORTED_OPERATION : Int := -7

/-- `ndk::ScopedAStatus`, as far as this file builds one. -/
inductive ScopedAStatus where
  | ok
  | fromExceptionCode (code : Int)
  deriving DecidableEq, Repr

/-! ## The filesystem -/

/-- What the process can observe of the filesystem, fixed during a run.
`readable p` is the text an `std::ifstream` on `p` delivers (`none`: the open
fails); `writable p` tells whether an `std::ofstream` on `p` opens; `accepts p t`
tells whether the text `t` inserted into an open stream on `p` reaches the file
when the stream is flushed at the end of its scope; `indeterminate` is the value
found in an uninitialised `uint32_t` local. -/
structure Sysfs where
  readable : String → Option String
  writable : String → Bool
  accepts : String → String → Bool
  indeterminate : Nat

/-- One operation on an output stream. -/
inductive IoEvent where
  | openWrite (path : String) (opened : Bool)
  | write (path : String) (text : String) (done : Bool)
  deriving DecidableEq, Repr

/-- The mutable filesystem state: content per path, and the operations performed so far. -/
structure Files where
  content : String → String
  log : List IoEvent

/-- `std::ofstream(p)`: the open is attempted; when it succeeds the file is
truncated (default open mode `ios::out`).  Returns whether the stream is good. -/
def ofstream (env : Sysfs) (p : String) (fs : Files) : Bool × Files :=
  if env.writable p then
    (true, { content := Function.update fs.content p "",
             log := fs.log ++ [IoEvent.openWrite p true] })
  else
    (false, { fs with log := fs.log ++ [IoEvent.openWrite p false] })

/-- `stream << t` followed by the end of the stream's scope: the text is
appended to the file when the file accepts it; the outcome is not reported to
the program. -/
def put (env : Sysfs) (p : String) (t : String) (fs : Files) : Files :=
  if env.accepts p t then
    { content := Function.update fs.content p (fs.content p ++ t),
      log := fs.log ++ [IoEvent.write p t true] }
  else
    { fs with log := fs.log ++ [IoEvent.write p t false] }

/-! ## Formatted input of an unsigned 32-bit number -/

/-- `isspace` in the "C" locale. -/
def isspace (c : Char) : Bool :=
  c = ' ' || (9 ≤ c.toNat && c.toNat ≤ 13)

/-- Value of a run of decimal digits. -/
def digitsValue (ds : List Char) : Nat :=
  ds.foldl (fun acc d => 10 * acc + (d.toNat - 48)) 0

/-- `stream >> maxBrightness` for a `uint32_t` on a stream over `text`, the
variable holding `old` before: the value stored and whether the extraction
succeeded.  Leading white space is skipped; at end of input nothing is stored;
an optional sign and decimal digits are read; no digit stores 0 and fails; a
magnitude above `2^32 - 1` stores `2^32 - 1` and fails; a minus sign negates
modulo `2^32`. -/
def extractUInt32 (old : Nat) (text : String) : Nat × Bool :=
  match text.data.dropWhile isspace with
  | [] => (old, false)
  | c :: rest =>
    let neg := decide (c = '-')
    let body := if c = '-' ∨ c = '+' then rest else c :: rest
    let ds := body.takeWhile Char.isDigit
    if ds = [] then (0, false)
    else if digitsValue ds > 4294967295 then (4294967295, false)
    else if neg then ((4294967296 - digitsValue ds) % 4294967296, true)
    else (digitsValue ds, true)

/-! ## Lights -/

/-- `LEDS_DIR`. -/
def LEDS_DIR : String := "/sys/class/leds"

/-- Class `Light`: `hwLight` and `path`. -/
structure Light where
  hwLight : HwLight
  path : String
  deriving DecidableEq, Repr

/-- Class `Led`: a `Light` with `maxBrightness`. -/
structure Led extends Light where
  maxBrightness : Nat
  deriving DecidableEq, Repr

/-- `Led::createLed`: the led is created when `path + "/max_brightness"` opens;
the outcome of the extraction is not inspected.  (The stream of line 42 is
opened on the same file and never used.) -/
def Led.createLed (env : Sysfs) (hwLight : HwLight) (path : String) : Option Led :=
  match env.readable (path ++ "/max_brightness") with
  | some text =>
    some { hwLight := hwLight, path := path,
           maxBrightness := (extractUInt32 env.indeterminate text).1 }
  | none => none

/-- Lines 95 to 109 of `Led::setLightStateInternal`: the brightness write. -/
def Led.writeBrightness (env : Sysfs) (self : Led) (state : HwLightState) (fs : Files) :
    ScopedAStatus × Files :=
  let brightness : Nat := if state.color = 0 then 0 else 1
  match ofstream env (self.path ++ "/brightness") fs with
  | (true, fs1) => (ScopedAStatus.ok, put env (self.path ++ "/brightness") (toString brightness) fs1)
  | (false, fs1) => (ScopedAStatus.fromExceptionCode EX_UNSUPPORTED_OPERATION, fs1)

/-- Lines 79 to 93 of `Led::setLightStateInternal`, followed by the rest: the
two delays, written only under `TIMED`. -/
def Led.writeDelays (env : Sysfs) (self : Led) (state : HwLightState) (fs : Files) :
    ScopedAStatus × Files :=
  if state.flashMode = FlashMode.TIMED then
    match ofstream env (self.path ++ "/delay_on") fs with
    | (true, fs1) =>
      let fs2 := put env (self.path ++ "/delay_on") (toString state.flashOnMs) fs1
      match ofstream env (self.path ++ "/delay_off") fs2 with
      | (true, fs3) =>
        Led.writeBrightness env self state
          (put env (self.path ++ "/delay_off") (toString state.flashOffMs) fs3)
      | (false, fs3) => (ScopedAStatus.fromExceptionCode EX_UNSUPPORTED_OPERATION, fs3)
    | (false, fs1) => (ScopedAStatus.fromExceptionCode EX_UNSUPPORTED_OPERATION, fs1)
  else
    Led.writeBrightness env self state fs

/-- `Led::setLightStateInternal`: the trigger stream is opened first, the flash
mode is inspected inside its scope. -/
def Led.setLightStateInternal (env : Sysfs) (self : Led) (state : HwLightState) (fs : Files) :
    ScopedAStatus × Files :=
  match ofstream env (self.path ++ "/trigger") fs with
  | (true, fs1) =>
    match state.flashMode with
    | FlashMode.NONE =>
      Led.writeDelays env self state (put env (self.path ++ "/trigger") "none" fs1)
    | FlashMode.HARDWARE => (ScopedAStatus.fromExceptionCode EX_UNSUPPORTED_OPERATION, fs1)
    | FlashMode.TIMED =>
      Led.writeDelays env self state (put env (self.path ++ "/trigger") "timer" fs1)
  | (false, fs1) => (ScopedAStatus.fromExceptionCode EX_UNSUPPORTED_OPERATION, fs1)

/-- Modelled from the spec: `Light::setLightStateInternal` of the base class
(declared in `Lights.h`, which is not among the sources); a light without a
control surface always fails with UnsupportedOperation and touches no file. -/
def Light.setLightStateInternal (_env : Sysfs) (_self : Light) (_state : HwLightState)
    (fs : Files) : ScopedAStatus × Files :=
  (ScopedAStatus.fromExceptionCode EX_UNSUPPORTED_OPERATION, fs)

/-- An owned pointer to a `Light`, with its dynamic type. -/
inductive LightPtr where
  | light (l : Light)
  | led (l : Led)
  deriving DecidableEq, Repr

/-- `light->hwLight`. -/
def LightPtr.hwLight : LightPtr → HwLight
  | LightPtr.light l => l.hwLight
  | LightPtr.led l => l.hwLight

/-- `light->path`. -/
def LightPtr.path : LightPtr → String
  | LightPtr.light l => l.path
  | LightPtr.led l => l.path

/-- `light->setLightStateInternal(state)`: virtual dispatch. -/
def LightPtr.setLightStateInternal (env : Sysfs) (self : LightPtr) (state : HwLightState)
    (fs : Files) : ScopedAStatus × Files :=
  match self with
  | LightPtr.light l => Light.setLightStateInternal env l state fs
  | LightPtr.led l => Led.setLightStateInternal env l state fs

/-- Class `Lights`: the vector `lights`. -/
structure Lights where
  lights : List LightPtr
  deriving DecidableEq, Repr

/-- Conversion of an `int` to `size_t` of `bits` bits. -/
def toSizeT (bits : Nat) (id : Int) : Nat :=
  (id % 2 ^ bits).toNat

/-- `Lights::setLightState`: `id >= lights.size()` is an unsigned comparison,
`lights[id]` indexes with the converted value. -/
def Lights.setLightState (bits : Nat) (env : Sysfs) (self : Lights) (id : Int)
    (state : HwLightState) (fs : Files) : ScopedAStatus × Files :=
  if h : self.lights.length ≤ toSizeT bits id then
    (ScopedAStatus.fromExceptionCode EX_UNSUPPORTED_OPERATION, fs)
  else
    (self.lights.get ⟨toSizeT bits id, Nat.lt_of_not_le h⟩).setLightStateInternal env state fs

/-- `Lights::getLights`: the `hwLight` of every light, in order. -/
def Lights.getLights (self : Lights) : List HwLight :=
  self.lights.map LightPtr.hwLight

/-! ## Discovery -/

/-- `d_type` of a directory entry. -/
inductive DType where
  | DT_UNKNOWN
  | DT_FIFO
  | DT_CHR
  | DT_DIR
  | DT_BLK
  | DT_REG
  | DT_LNK
  | DT_SOCK
  | DT_WHT
  deriving DecidableEq, Repr

/-- A `dirent`: `d_type` and `d_name`. -/
structure dirent where
  d_type : DType
  d_name : String
  deriving DecidableEq, Repr

/-- `s[0]` of a C string: the terminating NUL when the string is empty. -/
def cstrHead (s : List Char) : Char :=
  match s with
  | [] => Char.ofNat 0
  | c :: _ => c

/-- `strncmp(a, b, n) == 0` on C strings. -/
def strncmpEq : List Char → List Char → Nat → Bool
  | _, _, 0 => true
  | [], [], _ + 1 => true
  | a :: as, b :: bs, n + 1 => a == b && strncmpEq as bs n
  | [], _ :: _, _ + 1 => false
  | _ :: _, [], _ + 1 => false

/-- The test of line 141 and 142 on a directory entry. -/
def isCandidate (ent : dirent) : Bool :=
  (ent.d_type == DType.DT_DIR && cstrHead ent.d_name.data != '.') ||
  (ent.d_type == DType.DT_LNK && strncmpEq "led".data ent.d_name.data 3)

/-- The locals of the constructor during the scan: the two counters, the
vector, and the paths handed to `Led::createLed` so far.  The counters are
`int`s that advance by one per candidate; a listing of `2^31` candidates is out
of reach, so they are not wrapped. -/
structure Scan where
  id : Int
  ordinal : Int
  lights : List LightPtr
  tried : List String

/-- One iteration of the `readdir` loop. -/
def Lights.visit (env : Sysfs) (s : Scan) (ent : dirent) : Scan :=
  if isCandidate ent then
    let ledPath := LEDS_DIR ++ "/" ++ ent.d_name
    let hwLight : HwLight := { id := s.id, ordinal := s.ordinal, type := LightType.MICROPHONE }
    let s1 : Scan := { s with id := s.id + 1, ordinal := s.ordinal + 1,
                              tried := s.tried ++ [ledPath] }
    match Led.createLed env hwLight ledPath with
    | some led => { s1 with lights := s1.lights ++ [LightPtr.led led] }
    | none => s1
  else s

/-- The scan of the constructor; `dir` is the listing `readdir` yields, `none`
when `opendir` fails. -/
def Lights.scan (env : Sysfs) (dir : Option (List dirent)) : Scan :=
  match dir with
  | some ents => ents.foldl (Lights.visit env) { id := 0, ordinal := 0, lights := [], tried := [] }
  | none => { id := 0, ordinal := 0, lights := [], tried := [] }

/-- `Lights::Lights`. -/
def Lights.Lights (env : Sysfs) (dir : Option (List dirent)) : Lights :=
  { lights := (Lights.scan env dir).lights }

/-! ## The write protocol, as the specification words it -/

/-- The attribute writes of a state in protocol order, following the
specification: the trigger (`none` or `timer`), then `delay_on` and
`delay_off` when the mode is `TIMED`, then the brightness (`0` when the color
is 0, else `1`).  `HARDWARE` has no write. -/
def protocol (path : String) (state : HwLightState) : List (String × String) :=
  match state.flashMode with
  | FlashMode.NONE =>
    [(path ++ "/trigger", "none"),
     (path ++ "/brightness", if state.color = 0 then "0" else "1")]
  | FlashMode.TIMED =>
    [(path ++ "/trigger", "timer"),
     (path ++ "/delay_on", toString state.flashOnMs),
     (path ++ "/delay_off", toString state.flashOffMs),
     (path ++ "/brightness", if state.color = 0 then "0" else "1")]
  | FlashMode.HARDWARE => []

/-- Writes performed one after the other, each through a stream of its own;
the first stream that does not open ends the run with UnsupportedOperation. -/
def runWrites (env : Sysfs) : List (String × String) → Files → ScopedAStatus × Files
  | [], fs => (ScopedAStatus.ok, fs)
  | w :: ws, fs =>
    match ofstream env w.1 fs with
    | (true, fs1) => runWrites env ws (put env w.1 w.2 fs1)
    | (false, fs1) => (ScopedAStatus.fromExceptionCode EX_UNSUPPORTED_OPERATION, fs1)

/-- The stream operations of a list of writes whose streams all open. -/
def completed (env : Sysfs) : List (String × String) → List IoEvent
  | [] => []
  | w :: ws =>
    IoEvent.openWrite w.1 true :: IoEvent.write w.1 w.2 (env.accepts w.1 w.2) :: completed env ws

/-- The content a run of writes leaves in a path, `none` when the run does not
reach the path. -/
def overlay (env : Sysfs) : List (String × String) → String → Option String
  | [], _ => none
  | w :: ws, q =>
    if env.writable w.1 then
      match overlay env ws q with
      | some v => some v
      | none => if q = w.1 then some (if env.accepts w.1 w.2 then "" ++ w.2 else "") else none
    else none

/-- The paths of the candidates of a listing, in order. -/
def candidatePaths (ents : List dirent) : List String :=
  (ents.filter isCandidate).map (fun ent => LEDS_DIR ++ "/" ++ ent.d_name)

/-- The light the candidate path `ip.2` yields when `ip.1` candidates precede
it: the led `Led::createLed` builds for it with id and ordinal `ip.1`. -/
def yieldOf (env : Sysfs) (ip : Nat × String) : Option LightPtr :=
  (Led.createLed env { id := (ip.1 : Int), ordinal := (ip.1 : Int), type := LightType.MICROPHONE }
    ip.2).map LightPtr.led

/-! ## Concrete inputs -/

/-- A filesystem in which everything opens and every write is accepted, with
two leds of which only `led1` has a `max_brightness`. -/
def envAllOpen : Sysfs :=
  { readable := fun p => if p = "/sys/class/leds/led1/max_brightness" then some "255\n" else none
    writable := fun _ => true
    accepts := fun _ _ => true
    indeterminate := 0 }

/-- As `envAllOpen`, but `delay_on` of `led0` does not open for writing. -/
def envNoDelayOn : Sysfs :=
  { envAllOpen with writable := fun p => p != "/sys/class/leds/led0/delay_on" }

/-- A filesystem in which every stream opens and no write is accepted. -/
def envRejecting : Sysfs :=
  { envAllOpen with accepts := fun _ _ => false }

/-- A filesystem in which no file opens for writing. -/
def envNoneOpen : Sysfs :=
  { envAllOpen with writable := fun _ => false }

/-- A filesystem with two led entries: `max_brightness` of `led0` does not
open, that of `led1` holds text that is not a number. -/
def envTwoLeds : Sysfs :=
  { envAllOpen with
    readable := fun p => if p = "/sys/class/leds/led1/max_brightness" then some "abc" else none }

/-- A listing: `.`, `..`, a regular file, and the links `led0` and `led1`. -/
def listingTwoLeds : List dirent :=
  [{ d_type := DType.DT_DIR, d_name := "." }, { d_type := DType.DT_DIR, d_name := ".." },
   { d_type := DType.DT_REG, d_name := "uevent" },
   { d_type := DType.DT_LNK, d_name := "led0" }, { d_type := DType.DT_LNK, d_name := "led1" }]

/-- Initial file contents: every path holds the text `old`, nothing logged. -/
def filesOld : Files :=
  { content := fun _ => "old", log := [] }

/-- A led at `/sys/class/leds/led0`. -/
def led0 : Led :=
  { hwLight := { id := 0, ordinal := 0, type := LightType.MICROPHONE },
    path := "/sys/class/leds/led0", maxBrightness := 255 }

/-- A timed state: color nonzero, 500 ms on, 500 ms off. -/
def stateTimed : HwLightState :=
  { color := 255, flashMode := FlashMode.TIMED, flashOnMs := 500, flashOffMs := 500 }

/-- The off state: no flashing, color 0. -/
def stateOff : HwLightState :=
  { color := 0, flashMode := FlashMode.NONE, flashOnMs := 0, flashOffMs := 0 }

/-- A hardware-flash state. -/
def stateHardware : HwLightState :=
  { color := 255, flashMode := FlashMode.HARDWARE, flashOnMs := 0, flashOffMs := 0 }

/-! ## Streams -/

theorem ofstream_writable (env : Sysfs) (p : String) (fs : Files)
    (h : env.writable p = true) :
    ofstream env p fs =
      (true, { content := Function.update fs.content p "",
               log := fs.log ++ [IoEvent.openWrite p true] }) := by
  simp [ofstream, h]

theorem ofstream_unwritable (env : Sysfs) (p : String) (fs : Files)
    (h : env.writable p = false) :
    ofstream env p fs = (false, { fs with log := fs.log ++ [IoEvent.openWrite p false] }) := by
  simp [ofstream, h]

theorem put_log (env : Sysfs) (p t : String) (fs : Files) :
    (put env p t fs).log = fs.log ++ [IoEvent.write p t (env.accepts p t)] := by
  unfold put
  cases env.accepts p t <;> simp

theorem put_content (env : Sysfs) (p t : String) (fs : Files) :
    (put env p t fs).content =
      if env.accepts p t then Function.update fs.content p (fs.content p ++ t)
      else fs.content := by
  unfold put
  cases env.accepts p t <;> simp

/-- The four attribute paths of a device are pairwise different. -/
theorem attr_paths_distinct (path : String) :
    path ++ "/trigger" ≠ path ++ "/delay_on" ∧ path ++ "/trigger" ≠ path ++ "/delay_off" ∧
    path ++ "/trigger" ≠ path ++ "/brightness" ∧ path ++ "/delay_on" ≠ path ++ "/delay_off" ∧
    path ++ "/delay_on" ≠ path ++ "/brightness" ∧
    path ++ "/delay_off" ≠ path ++ "/brightness" := by
  refine ⟨?_, ?_, ?_, ?_, ?_, ?_⟩ <;>
  · intro h
    have h2 := congrArg String.data h
    simp at h2

/-! ## The source follows the protocol -/

theorem setLightStateInternal_eq_runWrites (env : Sysfs) (self : Led) (state : HwLightState)
    (fs : Files) (hmode : state.flashMode ≠ FlashMode.HARDWARE) :
    Led.setLightStateInternal env self state fs = runWrites env (protocol self.path state) fs := by
  have h0 : toString (0 : Nat) = "0" := by decide
  have h1 : toString (1 : Nat) = "1" := by decide
  obtain ⟨color, mode, tOn, tOff⟩ := state
  cases mode
  · by_cases hc : color = 0 <;>
      simp [Led.setLightStateInternal, Led.writeDelays, Led.writeBrightness, protocol,
        runWrites, hc, h0, h1]
  · exact absurd rfl hmode
  · by_cases hc : color = 0 <;>
      simp [Led.setLightStateInternal, Led.writeDelays, Led.writeBrightness, protocol,
        runWrites, hc, h0, h1]

/-! ## Runs of writes -/

theorem runWrites_cons_writable (env : Sysfs) (w : String × String) (ws : List (String × String))
    (fs : Files) (h : env.writable w.1 = true) :
    runWrites env (w :: ws) fs =
      runWrites env ws (put env w.1 w.2
        { content := Function.update fs.content w.1 "",
          log := fs.log ++ [IoEvent.openWrite w.1 true] }) := by
  simp [runWrites, ofstream_writable env w.1 fs h]

theorem runWrites_cons_unwritable (env : Sysfs) (w : String × String)
    (ws : List (String × String)) (fs : Files) (h : env.writable w.1 = false) :
    runWrites env (w :: ws) fs =
      (ScopedAStatus.fromExceptionCode EX_UNSUPPORTED_OPERATION,
       { fs with log := fs.log ++ [IoEvent.openWrite w.1 false] }) := by
  simp [runWrites, ofstream_unwritable env w.1 fs h]

/-- The status of a run depends on the environment and the writes only. -/
theorem runWrites_status_eq (env : Sysfs) (ws : List (String × String)) (fs fs2 : Files) :
    (runWrites env ws fs).1 = (runWrites env ws fs2).1 := by
  induction ws generalizing fs fs2 with
  | nil => rfl
  | cons w ws ih =>
    cases h : env.writable w.1 with
    | true => rw [runWrites_cons_writable env w ws fs h, runWrites_cons_writable env w ws fs2 h]
              exact ih _ _
    | false => rw [runWrites_cons_unwritable env w ws fs h, runWrites_cons_unwritable env w ws fs2 h]

/-- A run succeeds exactly when every stream opens. -/
theorem runWrites_ok_iff (env : Sysfs) (ws : List (String × String)) (fs : Files) :
    (runWrites env ws fs).1 = ScopedAStatus.ok ↔ ∀ w ∈ ws, env.writable w.1 = true := by
  induction ws generalizing fs with
  | nil => simp [runWrites]
  | cons w ws ih =>
    cases h : env.writable w.1 with
    | true =>
      rw [runWrites_cons_writable env w ws fs h, ih]
      simp [h]
    | false =>
      rw [runWrites_cons_unwritable env w ws fs h]
      simp [h]

/-- A run ends with success or with UnsupportedOperation. -/
theorem runWrites_status_cases (env : Sysfs) (ws : List (String × String)) (fs : Files) :
    (runWrites env ws fs).1 = ScopedAStatus.ok ∨
    (runWrites env ws fs).1 = ScopedAStatus.fromExceptionCode EX_UNSUPPORTED_OPERATION := by
  induction ws generalizing fs with
  | nil => simp [runWrites]
  | cons w ws ih =>
    cases h : env.writable w.1 with
    | true =>
      rw [runWrites_cons_writable env w ws fs h]
      exact ih _
    | false =>
      rw [runWrites_cons_unwritable env w ws fs h]
      simp

/-- The log of a run whose streams all open. -/
theorem runWrites_log_of_writable (env : Sysfs) (ws : List (String × String)) (fs : Files)
    (h : ∀ w ∈ ws, env.writable w.1 = true) :
    (runWrites env ws fs).2.log = fs.log ++ completed env ws := by
  induction ws generalizing fs with
  | nil => simp [runWrites, completed]
  | cons w ws ih =>
    have hw : env.writable w.1 = true := h w (List.mem_cons_self _ _)
    rw [runWrites_cons_writable env w ws fs hw, ih _ (fun x hx => h x (List.mem_cons_of_mem _ hx))]
    simp [put_log, completed]

/-- The content a run leaves behind. -/
theorem runWrites_content (env : Sysfs) (ws : List (String × String)) (fs : Files) (q : String) :
    (runWrites env ws fs).2.content q = (overlay env ws q).getD (fs.content q) := by
  induction ws generalizing fs with
  | nil => simp [runWrites, overlay]
  | cons w ws ih =>
    cases h : env.writable w.1 with
    | true =>
      rw [runWrites_cons_writable env w ws fs h, ih]
      simp only [overlay, h, if_true]
      cases hq : overlay env ws q with
      | some v => simp
      | none =>
        simp only [Option.getD_none, put_content]
        by_cases hqw : q = w.1
        · subst hqw
          cases hacc : env.accepts w.1 w.2 <;> simp [hacc]
        · cases hacc : env.accepts w.1 w.2 <;> simp [hacc, hqw]
    | false =>
      rw [runWrites_cons_unwritable env w ws fs h]
      simp [overlay, h]

/-- A run stopped by the first stream that does not open. -/
theorem runWrites_first_unwritable (env : Sysfs) (pre post : List (String × String))
    (w : String × String) (fs : Files)
    (hpre : ∀ x ∈ pre, env.writable x.1 = true) (hw : env.writable w.1 = false) :
    runWrites env (pre ++ w :: post) fs =
      (ScopedAStatus.fromExceptionCode EX_UNSUPPORTED_OPERATION,
       { content := (runWrites env pre fs).2.content,
         log := fs.log ++ completed env pre ++ [IoEvent.openWrite w.1 false] }) := by
  induction pre generalizing fs with
  | nil =>
    rw [List.nil_append, runWrites_cons_unwritable env w post fs hw]
    simp [runWrites, completed]
  | cons x pre ih =>
    have hx : env.writable x.1 = true := hpre x (List.mem_cons_self _ _)
    rw [List.cons_append, runWrites_cons_writable env x _ fs hx,
      ih _ (fun y hy => hpre y (List.mem_cons_of_mem _ hy)),
      runWrites_cons_writable env x pre fs hx]
    simp [put_log, completed]

/-- Paths a run of opening streams does not name keep their content. -/
theorem overlay_of_not_mem (env : Sysfs) (ws : List (String × String)) (q : String)
    (hq : q ∉ ws.map Prod.fst) : overlay env ws q = none := by
  induction ws with
  | nil => rfl
  | cons w ws ih =>
    simp only [List.map_cons, List.mem_cons, not_or] at hq
    simp [overlay, ih hq.2, hq.1]

/-- A path named once by a run of opening streams holds the text written to it. -/
theorem overlay_of_mem (env : Sysfs) (ws : List (String × String)) (w : String × String)
    (hall : ∀ x ∈ ws, env.writable x.1 = true) (hnd : (ws.map Prod.fst).Nodup) (hw : w ∈ ws) :
    overlay env ws w.1 = some (if env.accepts w.1 w.2 then "" ++ w.2 else "") := by
  induction ws with
  | nil => cases hw
  | cons x ws ih =>
    have hx : env.writable x.1 = true := hall x (List.mem_cons_self _ _)
    simp only [List.map_cons, List.nodup_cons] at hnd
    rcases List.mem_cons.1 hw with rfl | hmem
    · simp [overlay, hx, overlay_of_not_mem env ws w.1 hnd.1]
    · simp [overlay, hx, ih (fun y hy => hall y (List.mem_cons_of_mem _ hy)) hnd.2 hmem]

/-- The paths of the protocol are pairwise different. -/
theorem protocol_nodup (path : String) (state : HwLightState) :
    ((protocol path state).map Prod.fst).Nodup := by
  obtain ⟨h1, h2, h3, h4, h5, h6⟩ := attr_paths_distinct path
  unfold protocol
  cases state.flashMode <;> simp [h1, h2, h3, h4, h5, h6]

/-- The result of a call under `HARDWARE`. -/
theorem hardware_result (env : Sysfs) (self : Led) (state : HwLightState) (fs : Files)
    (hmode : state.flashMode = FlashMode.HARDWARE) :
    Led.setLightStateInternal env self state fs =
      (ScopedAStatus.fromExceptionCode EX_UNSUPPORTED_OPERATION,
       { content := if env.writable (self.path ++ "/trigger") then
                      Function.update fs.content (self.path ++ "/trigger") ""
                    else fs.content,
         log := fs.log ++ [IoEvent.openWrite (self.path ++ "/trigger")
                  (env.writable (self.path ++ "/trigger"))] }) := by
  cases h : env.writable (self.path ++ "/trigger") with
  | true => simp [Led.setLightStateInternal, ofstream_writable env _ fs h, hmode]
  | false => simp [Led.setLightStateInternal, ofstream_unwritable env _ fs h]

/-- Applying a state to a led a second time changes neither status nor content. -/
theorem led_apply_twice (env : Sysfs) (self : Led) (state : HwLightState) (fs : Files) :
    (Led.setLightStateInternal env self state
        (Led.setLightStateInternal env self state fs).2).1
      = (Led.setLightStateInternal env self state fs).1 ∧
    (Led.setLightStateInternal env self state
        (Led.setLightStateInternal env self state fs).2).2.content
      = (Led.setLightStateInternal env self state fs).2.content := by
  by_cases hmode : state.flashMode = FlashMode.HARDWARE
  · rw [hardware_result env self state fs hmode, hardware_result env self state _ hmode]
    refine ⟨rfl, ?_⟩
    cases env.writable (self.path ++ "/trigger") <;> simp
  · rw [setLightStateInternal_eq_runWrites env self state fs hmode,
      setLightStateInternal_eq_runWrites env self state _ hmode]
    refine ⟨runWrites_status_eq env _ _ _, ?_⟩
    funext q
    rw [runWrites_content, runWrites_content]
    cases overlay env (protocol self.path state) q <;> simp

/-! ## State application -/

/-- C5: under `TIMED`, when the four attribute files open, the call succeeds
and performs exactly the writes trigger = "timer", delay_on = decimal text of
`flashOnMs`, delay_off = decimal text of `flashOffMs`, brightness = "0" for
color 0 and "1" otherwise, each through a stream of its own, in this order;
every accepted write leaves its text in the file. -/
theorem setLightStateInternal_timed (env : Sysfs) (self : Led) (state : HwLightState)
    (fs : Files) (hmode : state.flashMode = FlashMode.TIMED)
    (ht : env.writable (self.path ++ "/trigger") = true)
    (hon : env.writable (self.path ++ "/delay_on") = true)
    (hoff : env.writable (self.path ++ "/delay_off") = true)
    (hb : env.writable (self.path ++ "/brightness") = true) :
    (Led.setLightStateInternal env self state fs).1 = ScopedAStatus.ok ∧
    (Led.setLightStateInternal env self state fs).2.log = fs.log ++
      [IoEvent.openWrite (self.path ++ "/trigger") true,
       IoEvent.write (self.path ++ "/trigger") "timer"
         (env.accepts (self.path ++ "/trigger") "timer"),
       IoEvent.openWrite (self.path ++ "/delay_on") true,
       IoEvent.write (self.path ++ "/delay_on") (toString state.flashOnMs)
         (env.accepts (self.path ++ "/delay_on") (toString state.flashOnMs)),
       IoEvent.openWrite (self.path ++ "/delay_off") true,
       IoEvent.write (self.path ++ "/delay_off") (toString state.flashOffMs)
         (env.accepts (self.path ++ "/delay_off") (toString state.flashOffMs)),
       IoEvent.openWrite (self.path ++ "/brightness") true,
       IoEvent.write (self.path ++ "/brightness") (if state.color = 0 then "0" else "1")
         (env.accepts (self.path ++ "/brightness") (if state.color = 0 then "0" else "1"))] ∧
    (env.accepts (self.path ++ "/trigger") "timer" = true →
      (Led.setLightStateInternal env self state fs).2.content (self.path ++ "/trigger")
        = "timer") ∧
    (env.accepts (self.path ++ "/delay_on") (toString state.flashOnMs) = true →
      (Led.setLightStateInternal env self state fs).2.content (self.path ++ "/delay_on")
        = toString state.flashOnMs) ∧
    (env.accepts (self.path ++ "/delay_off") (toString state.flashOffMs) = true →
      (Led.setLightStateInternal env self state fs).2.content (self.path ++ "/delay_off")
        = toString state.flashOffMs) ∧
    (env.accepts (self.path ++ "/brightness") (if state.color = 0 then "0" else "1") = true →
      (Led.setLightStateInternal env self state fs).2.content (self.path ++ "/brightness")
        = if state.color = 0 then "0" else "1") := by
  have hne : state.flashMode ≠ FlashMode.HARDWARE := by rw [hmode]; decide
  have hp : protocol self.path state =
      [(self.path ++ "/trigger", "timer"),
       (self.path ++ "/delay_on", toString state.flashOnMs),
       (self.path ++ "/delay_off", toString state.flashOffMs),
       (self.path ++ "/brightness", if state.color = 0 then "0" else "1")] := by
    simp [protocol, hmode]
  have hall : ∀ w ∈ protocol self.path state, env.writable w.1 = true := by
    rw [hp]; simp [ht, hon, hoff, hb]
  have hnd := protocol_nodup self.path state
  rw [setLightStateInternal_eq_runWrites env self state fs hne]
  refine ⟨(runWrites_ok_iff env _ fs).2 hall, ?_, ?_, ?_, ?_, ?_⟩
  · rw [runWrites_log_of_writable env _ fs hall, hp]
    simp [completed]
  · intro hacc
    rw [runWrites_content, overlay_of_mem env _ (self.path ++ "/trigger", "timer") hall hnd
      (by rw [hp]; simp)]
    simp [hacc]
  · intro hacc
    rw [runWrites_content, overlay_of_mem env _
      (self.path ++ "/delay_on", toString state.flashOnMs) hall hnd (by rw [hp]; simp)]
    simp [hacc]
  · intro hacc
    rw [runWrites_content, overlay_of_mem env _
      (self.path ++ "/delay_off", toString state.flashOffMs) hall hnd (by rw [hp]; simp)]
    simp [hacc]
  · intro hacc
    rw [runWrites_content, overlay_of_mem env _
      (self.path ++ "/brightness", if state.color = 0 then "0" else "1") hall hnd
      (by rw [hp]; simp)]
    simp [hacc]

/-- C6: under `NONE`, when trigger and brightness open, the call succeeds and
performs exactly two writes, trigger = "none" then brightness = "0" for color 0
and "1" otherwise, whatever the two delays of the state are; `delay_on` and
`delay_off` are neither opened nor written and keep their content. -/
theorem setLightStateInternal_none (env : Sysfs) (self : Led) (state : HwLightState)
    (fs : Files) (hmode : state.flashMode = FlashMode.NONE)
    (ht : env.writable (self.path ++ "/trigger") = true)
    (hb : env.writable (self.path ++ "/brightness") = true) :
    (Led.setLightStateInternal env self state fs).1 = ScopedAStatus.ok ∧
    (Led.setLightStateInternal env self state fs).2.log = fs.log ++
      [IoEvent.openWrite (self.path ++ "/trigger") true,
       IoEvent.write (self.path ++ "/trigger") "none"
         (env.accepts (self.path ++ "/trigger") "none"),
       IoEvent.openWrite (self.path ++ "/brightness") true,
       IoEvent.write (self.path ++ "/brightness") (if state.color = 0 then "0" else "1")
         (env.accepts (self.path ++ "/brightness") (if state.color = 0 then "0" else "1"))] ∧
    (env.accepts (self.path ++ "/trigger") "none" = true →
      (Led.setLightStateInternal env self state fs).2.content (self.path ++ "/trigger")
        = "none") ∧
    (env.accepts (self.path ++ "/brightness") (if state.color = 0 then "0" else "1") = true →
      (Led.setLightStateInternal env self state fs).2.content (self.path ++ "/brightness")
        = if state.color = 0 then "0" else "1") ∧
    (Led.setLightStateInternal env self state fs).2.content (self.path ++ "/delay_on")
      = fs.content (self.path ++ "/delay_on") ∧
    (Led.setLightStateInternal env self state fs).2.content (self.path ++ "/delay_off")
      = fs.content (self.path ++ "/delay_off") := by
  have hne : state.flashMode ≠ FlashMode.HARDWARE := by rw [hmode]; decide
  have hp : protocol self.path state =
      [(self.path ++ "/trigger", "none"),
       (self.path ++ "/brightness", if state.color = 0 then "0" else "1")] := by
    simp [protocol, hmode]
  have hall : ∀ w ∈ protocol self.path state, env.writable w.1 = true := by
    rw [hp]; simp [ht, hb]
  have hnd := protocol_nodup self.path state
  obtain ⟨d1, d2, _, d4, d5, d6⟩ := attr_paths_distinct self.path
  rw [setLightStateInternal_eq_runWrites env self state fs hne]
  refine ⟨(runWrites_ok_iff env _ fs).2 hall, ?_, ?_, ?_, ?_, ?_⟩
  · rw [runWrites_log_of_writable env _ fs hall, hp]
    simp [completed]
  · intro hacc
    rw [runWrites_content, overlay_of_mem env _ (self.path ++ "/trigger", "none") hall hnd
      (by rw [hp]; simp)]
    simp [hacc]
  · intro hacc
    rw [runWrites_content, overlay_of_mem env _
      (self.path ++ "/brightness", if state.color = 0 then "0" else "1") hall hnd
      (by rw [hp]; simp)]
    simp [hacc]
  · rw [runWrites_content, overlay_of_not_mem env _ _ (by rw [hp]; simp [Ne.symm d1, d5])]
    rfl
  · rw [runWrites_content, overlay_of_not_mem env _ _ (by rw [hp]; simp [Ne.symm d2, d6])]
    rfl

/-- C5 at color 255, 500 ms on, 500 ms off: trigger = "timer", delay_on = "500",
delay_off = "500", brightness = "1", in this order, and the files hold these texts. -/
theorem setLightStateInternal_timed_witness :
    (stateTimed.flashMode = FlashMode.TIMED ∧
     envAllOpen.writable (led0.path ++ "/trigger") = true ∧
     envAllOpen.writable (led0.path ++ "/delay_on") = true ∧
     envAllOpen.writable (led0.path ++ "/delay_off") = true ∧
     envAllOpen.writable (led0.path ++ "/brightness") = true) ∧
    (Led.setLightStateInternal envAllOpen led0 stateTimed filesOld).1 = ScopedAStatus.ok ∧
    (Led.setLightStateInternal envAllOpen led0 stateTimed filesOld).2.log =
      [IoEvent.openWrite "/sys/class/leds/led0/trigger" true,
       IoEvent.write "/sys/class/leds/led0/trigger" "timer" true,
       IoEvent.openWrite "/sys/class/leds/led0/delay_on" true,
       IoEvent.write "/sys/class/leds/led0/delay_on" "500" true,
       IoEvent.openWrite "/sys/class/leds/led0/delay_off" true,
       IoEvent.write "/sys/class/leds/led0/delay_off" "500" true,
       IoEvent.openWrite "/sys/class/leds/led0/brightness" true,
       IoEvent.write "/sys/class/leds/led0/brightness" "1" true] ∧
    (Led.setLightStateInternal envAllOpen led0 stateTimed filesOld).2.content
      "/sys/class/leds/led0/brightness" = "1" :=
  ⟨⟨rfl, rfl, rfl, rfl, rfl⟩,
   (setLightStateInternal_timed envAllOpen led0 stateTimed filesOld rfl rfl rfl rfl rfl).1,
   (setLightStateInternal_timed envAllOpen led0 stateTimed filesOld rfl rfl rfl rfl rfl).2.1,
   (setLightStateInternal_timed envAllOpen led0 stateTimed filesOld
      rfl rfl rfl rfl rfl).2.2.2.2.2 rfl⟩

/-- C6 at color 0: trigger = "none", then brightness = "0", and nothing on the delays. -/
theorem setLightStateInternal_none_witness :
    (stateOff.flashMode = FlashMode.NONE ∧
     envAllOpen.writable (led0.path ++ "/trigger") = true ∧
     envAllOpen.writable (led0.path ++ "/brightness") = true) ∧
    (Led.setLightStateInternal envAllOpen led0 stateOff filesOld).1 = ScopedAStatus.ok ∧
    (Led.setLightStateInternal envAllOpen led0 stateOff filesOld).2.log =
      [IoEvent.openWrite "/sys/class/leds/led0/trigger" true,
       IoEvent.write "/sys/class/leds/led0/trigger" "none" true,
       IoEvent.openWrite "/sys/class/leds/led0/brightness" true,
       IoEvent.write "/sys/class/leds/led0/brightness" "0" true] ∧
    (Led.setLightStateInternal envAllOpen led0 stateOff filesOld).2.content
      "/sys/class/leds/led0/brightness" = "0" :=
  ⟨⟨rfl, rfl, rfl⟩,
   (setLightStateInternal_none envAllOpen led0 stateOff filesOld rfl rfl rfl).1,
   (setLightStateInternal_none envAllOpen led0 stateOff filesOld rfl rfl rfl).2.1,
   (setLightStateInternal_none envAllOpen led0 stateOff filesOld rfl rfl rfl).2.2.2.1 rfl⟩

/-- C7: under `NONE` or `TIMED`, split the protocol at the first attribute `w`
whose file does not open (`pre` before it, all opening, `post` after it).  The
call fails with UnsupportedOperation; the log holds the open and the write of
every attribute of `pre`, then the failed open of `w`, and nothing else, so no
attribute of `post` is opened or written; `w` and the attributes of `post` keep
their content, as does every path outside `pre`; a write of `pre` that the
file accepted stays in the file. -/
theorem setLightStateInternal_first_unwritable (env : Sysfs) (self : Led)
    (state : HwLightState) (fs : Files) (pre post : List (String × String))
    (w : String × String)
    (hmode : state.flashMode ≠ FlashMode.HARDWARE)
    (hsplit : protocol self.path state = pre ++ w :: post)
    (hpre : ∀ x ∈ pre, env.writable x.1 = true)
    (hw : env.writable w.1 = false) :
    (Led.setLightStateInternal env self state fs).1
      = ScopedAStatus.fromExceptionCode EX_UNSUPPORTED_OPERATION ∧
    (Led.setLightStateInternal env self state fs).2.log
      = fs.log ++ completed env pre ++ [IoEvent.openWrite w.1 false] ∧
    (∀ x ∈ pre, env.accepts x.1 x.2 = true →
      (Led.setLightStateInternal env self state fs).2.content x.1 = x.2) ∧
    (∀ x ∈ w :: post,
      (Led.setLightStateInternal env self state fs).2.content x.1 = fs.content x.1) ∧
    (∀ q, q ∉ pre.map Prod.fst →
      (Led.setLightStateInternal env self state fs).2.content q = fs.content q) := by
  have hnd := protocol_nodup self.path state
  rw [hsplit, List.map_append, List.nodup_append] at hnd
  obtain ⟨hndpre, -, hdisj⟩ := hnd
  rw [setLightStateInternal_eq_runWrites env self state fs hmode, hsplit,
    runWrites_first_unwritable env pre post w fs hpre hw]
  have hout : ∀ q, q ∉ pre.map Prod.fst → (runWrites env pre fs).2.content q = fs.content q := by
    intro q hq
    rw [runWrites_content, overlay_of_not_mem env pre q hq]
    rfl
  refine ⟨rfl, rfl, ?_, ?_, hout⟩
  · intro x hx hacc
    show (runWrites env pre fs).2.content x.1 = x.2
    rw [runWrites_content, overlay_of_mem env pre x hpre hndpre hx]
    simp [hacc]
  · intro x hx
    show (runWrites env pre fs).2.content x.1 = fs.content x.1
    apply hout
    intro hmem
    exact hdisj hmem (List.mem_map_of_mem Prod.fst hx)

/-- C7 under `TIMED` with `delay_on` not opening: the call fails, the trigger
holds "timer", `delay_off` and `brightness` keep their content and appear in no
operation. -/
theorem setLightStateInternal_first_unwritable_witness :
    (Led.setLightStateInternal
        envNoDelayOn
        led0 stateTimed filesOld).1
      = ScopedAStatus.fromExceptionCode EX_UNSUPPORTED_OPERATION ∧
    (Led.setLightStateInternal
        envNoDelayOn
        led0 stateTimed filesOld).2.log
      = [IoEvent.openWrite "/sys/class/leds/led0/trigger" true,
         IoEvent.write "/sys/class/leds/led0/trigger" "timer" true,
         IoEvent.openWrite "/sys/class/leds/led0/delay_on" false] ∧
    (Led.setLightStateInternal
        envNoDelayOn
        led0 stateTimed filesOld).2.content "/sys/class/leds/led0/trigger" = "timer" ∧
    (Led.setLightStateInternal
        envNoDelayOn
        led0 stateTimed filesOld).2.content "/sys/class/leds/led0/delay_off" = "old" ∧
    (Led.setLightStateInternal
        envNoDelayOn
        led0 stateTimed filesOld).2.content "/sys/class/leds/led0/brightness" = "old" :=
  have h := setLightStateInternal_first_unwritable
    envNoDelayOn
    led0 stateTimed filesOld
    [("/sys/class/leds/led0/trigger", "timer")]
    [("/sys/class/leds/led0/delay_off", "500"), ("/sys/class/leds/led0/brightness", "1")]
    ("/sys/class/leds/led0/delay_on", "500")
    (by decide) (by decide) (by decide) (by decide)
  ⟨h.1, h.2.1, h.2.2.1 _ (List.mem_singleton.2 rfl) rfl,
   h.2.2.2.1 ("/sys/class/leds/led0/delay_off", "500") (by decide),
   h.2.2.2.1 ("/sys/class/leds/led0/brightness", "1") (by decide)⟩

/-- C9, as stated, fails: with every stream opening and every write rejected,
the call under `NONE` reports success although neither write reached its file. -/
theorem setLightStateInternal_ok_despite_failed_write :
    (Led.setLightStateInternal envRejecting led0 stateOff filesOld).1 = ScopedAStatus.ok ∧
    (Led.setLightStateInternal envRejecting led0 stateOff filesOld).2.log =
      [IoEvent.openWrite "/sys/class/leds/led0/trigger" true,
       IoEvent.write "/sys/class/leds/led0/trigger" "none" false,
       IoEvent.openWrite "/sys/class/leds/led0/brightness" true,
       IoEvent.write "/sys/class/leds/led0/brightness" "0" false] ∧
    (Led.setLightStateInternal envRejecting led0 stateOff filesOld).2.content
      "/sys/class/leds/led0/brightness" ≠ "0" := by
  decide

/-- C9, amended: under `NONE` or `TIMED` the call reports success exactly when
every attribute file of the protocol opens for writing, and
UnsupportedOperation exactly when one of them does not open; whether a write
is accepted after its stream opened has no influence on the status. -/
theorem setLightStateInternal_status_iff_open (env : Sysfs) (self : Led)
    (state : HwLightState) (fs : Files) (hmode : state.flashMode ≠ FlashMode.HARDWARE) :
    ((Led.setLightStateInternal env self state fs).1 = ScopedAStatus.ok ↔
      ∀ w ∈ protocol self.path state, env.writable w.1 = true) ∧
    ((Led.setLightStateInternal env self state fs).1
        = ScopedAStatus.fromExceptionCode EX_UNSUPPORTED_OPERATION ↔
      ∃ w ∈ protocol self.path state, env.writable w.1 = false) ∧
    (∀ env2 : Sysfs, env2.writable = env.writable →
      (Led.setLightStateInternal env2 self state fs).1
        = (Led.setLightStateInternal env self state fs).1) := by
  have hiff : ∀ e : Sysfs, (Led.setLightStateInternal e self state fs).1 = ScopedAStatus.ok ↔
      ∀ w ∈ protocol self.path state, e.writable w.1 = true := by
    intro e
    rw [setLightStateInternal_eq_runWrites e self state fs hmode]
    exact runWrites_ok_iff e _ fs
  have hcases : ∀ e : Sysfs, (Led.setLightStateInternal e self state fs).1 = ScopedAStatus.ok ∨
      (Led.setLightStateInternal e self state fs).1
        = ScopedAStatus.fromExceptionCode EX_UNSUPPORTED_OPERATION := by
    intro e
    rw [setLightStateInternal_eq_runWrites e self state fs hmode]
    exact runWrites_status_cases e _ fs
  have hfail : ∀ e : Sysfs, (Led.setLightStateInternal e self state fs).1
        = ScopedAStatus.fromExceptionCode EX_UNSUPPORTED_OPERATION ↔
      ∃ w ∈ protocol self.path state, e.writable w.1 = false := by
    intro e
    constructor
    · intro hf
      by_contra hno
      have hall : ∀ w ∈ protocol self.path state, e.writable w.1 = true := by
        intro w hw
        by_contra hwf
        exact hno ⟨w, hw, by simpa using hwf⟩
      rw [(hiff e).2 hall] at hf
      cases hf
    · rintro ⟨w, hw, hwf⟩
      rcases hcases e with hok | hf
      · have := (hiff e).1 hok w hw
        rw [hwf] at this
        cases this
      · exact hf
  refine ⟨hiff env, hfail env, ?_⟩
  intro env2 h2
  rcases hcases env with hok | hf
  · rw [hok, hiff env2, h2]
    exact (hiff env).1 hok
  · rw [hf, hfail env2, h2]
    exact (hfail env).1 hf

/-- C9 amended, at the off state with every stream opening and every write
rejected: success. -/
theorem setLightStateInternal_status_iff_open_witness :
    stateOff.flashMode ≠ FlashMode.HARDWARE ∧
    (Led.setLightStateInternal envRejecting led0 stateOff filesOld).1 = ScopedAStatus.ok :=
  ⟨by decide,
   (setLightStateInternal_status_iff_open envRejecting led0 stateOff filesOld (by decide)).1.2
     (by decide)⟩

/-- C4, as stated, fails: under `HARDWARE` the trigger file is opened for
writing before the mode is inspected, and the open truncates it. -/
theorem setLightStateInternal_hardware_opens_trigger :
    (Led.setLightStateInternal envAllOpen led0 stateHardware filesOld).2.log
      = [IoEvent.openWrite "/sys/class/leds/led0/trigger" true] ∧
    filesOld.content "/sys/class/leds/led0/trigger" = "old" ∧
    (Led.setLightStateInternal envAllOpen led0 stateHardware filesOld).2.content
      "/sys/class/leds/led0/trigger" = "" := by
  decide

/-- C4, amended: under `HARDWARE` the call fails with UnsupportedOperation and
inserts no text into any attribute file; its only operation is the attempt to
open the trigger file for writing, which truncates that file when it opens;
`delay_on`, `delay_off`, `brightness` and every other path are neither opened
nor modified. -/
theorem setLightStateInternal_hardware (env : Sysfs) (self : Led) (state : HwLightState)
    (fs : Files) (hmode : state.flashMode = FlashMode.HARDWARE) :
    (Led.setLightStateInternal env self state fs).1
      = ScopedAStatus.fromExceptionCode EX_UNSUPPORTED_OPERATION ∧
    (Led.setLightStateInternal env self state fs).2.log
      = fs.log ++ [IoEvent.openWrite (self.path ++ "/trigger")
          (env.writable (self.path ++ "/trigger"))] ∧
    (Led.setLightStateInternal env self state fs).2.content (self.path ++ "/trigger")
      = (if env.writable (self.path ++ "/trigger") then "" else
          fs.content (self.path ++ "/trigger")) ∧
    (∀ q, q ≠ self.path ++ "/trigger" →
      (Led.setLightStateInternal env self state fs).2.content q = fs.content q) := by
  rw [hardware_result env self state fs hmode]
  refine ⟨rfl, rfl, ?_, ?_⟩
  · cases env.writable (self.path ++ "/trigger") <;> simp
  · intro q hq
    cases env.writable (self.path ++ "/trigger") <;> simp [Function.update, hq]

/-- C4 amended, at a hardware-flash state with every file opening: failure, one
open of the trigger, `brightness` unchanged. -/
theorem setLightStateInternal_hardware_witness :
    stateHardware.flashMode = FlashMode.HARDWARE ∧
    (Led.setLightStateInternal envAllOpen led0 stateHardware filesOld).1
      = ScopedAStatus.fromExceptionCode EX_UNSUPPORTED_OPERATION ∧
    (Led.setLightStateInternal envAllOpen led0 stateHardware filesOld).2.content
      "/sys/class/leds/led0/brightness" = "old" :=
  ⟨rfl, (setLightStateInternal_hardware envAllOpen led0 stateHardware filesOld rfl).1,
   (setLightStateInternal_hardware envAllOpen led0 stateHardware filesOld rfl).2.2.2
     "/sys/class/leds/led0/brightness" (by decide)⟩

/-! ## Dispatch by id -/

/-- An `int` that is negative, or not below a size under `2^31`, converts to
a `size_t` of at least 32 bits that is not below the size. -/
theorem toSizeT_out_of_range (bits : Nat) (id : Int) (n : Nat) (hbits : 32 ≤ bits)
    (hlo : -2 ^ 31 ≤ id) (hhi : id < 2 ^ 31) (hn : n < 2 ^ 31)
    (hout : (n : Int) ≤ id ∨ id < 0) : n ≤ toSizeT bits id := by
  have hpow : (2 : Int) ^ 32 ≤ 2 ^ bits := by
    exact_mod_cast Nat.pow_le_pow_right (by norm_num : 0 < 2) hbits
  have hpos : (0 : Int) < 2 ^ bits := by positivity
  unfold toSizeT
  rcases hout with hge | hneg
  · have h0 : 0 ≤ id := le_trans (Int.ofNat_nonneg n) hge
    have hmod : id % 2 ^ bits = id := Int.emod_eq_of_lt h0 (by omega)
    rw [hmod]
    omega
  · have hmod : id % 2 ^ bits = id + 2 ^ bits := by
      rw [← Int.add_mul_emod_self_left id (2 ^ bits) 1, mul_one]
      exact Int.emod_eq_of_lt (by omega) (by omega)
    rw [hmod]
    have hn2 : (n : Int) < 2 ^ 31 := by exact_mod_cast hn
    omega

/-- C3: for an `int` id that is negative or at least the number of lights
(fewer than `2^31`, `size_t` of 32 bits or more), `setLightState` returns
`EX_UNSUPPORTED_OPERATION` and hands back the filesystem state it received: no
stream operation is logged and no content changes. -/
theorem setLightState_out_of_range (bits : Nat) (env : Sysfs) (self : Lights) (id : Int)
    (state : HwLightState) (fs : Files) (hbits : 32 ≤ bits)
    (hlo : -2 ^ 31 ≤ id) (hhi : id < 2 ^ 31) (hsize : self.lights.length < 2 ^ 31)
    (hout : (self.lights.length : Int) ≤ id ∨ id < 0) :
    (Lights.setLightState bits env self id state fs).1
      = ScopedAStatus.fromExceptionCode EX_UNSUPPORTED_OPERATION ∧
    (Lights.setLightState bits env self id state fs).2.log = fs.log ∧
    (Lights.setLightState bits env self id state fs).2.content = fs.content := by
  have h := toSizeT_out_of_range bits id self.lights.length hbits hlo hhi hsize hout
  simp [Lights.setLightState, h]

/-- C3 at id -1 and one light, 64-bit `size_t`. -/
theorem setLightState_out_of_range_witness :
    (Lights.setLightState 64 envAllOpen { lights := [LightPtr.led led0] } (-1) stateTimed
        filesOld).1
      = ScopedAStatus.fromExceptionCode EX_UNSUPPORTED_OPERATION ∧
    (Lights.setLightState 64 envAllOpen { lights := [LightPtr.led led0] } (-1) stateTimed
        filesOld).2.log = [] :=
  have h := setLightState_out_of_range 64 envAllOpen { lights := [LightPtr.led led0] } (-1)
    stateTimed filesOld (by decide) (by decide) (by decide) (by decide) (Or.inr (by decide))
  ⟨h.1, h.2.1⟩

/-- C8: with a fixed environment (what opens and what is accepted does not
change), `setLightState(id, state)` applied to the result of
`setLightState(id, state)` returns the same status and leaves the same file
contents as the first application. -/
theorem setLightState_idempotent (bits : Nat) (env : Sysfs) (self : Lights) (id : Int)
    (state : HwLightState) (fs : Files) :
    (Lights.setLightState bits env self id state
        (Lights.setLightState bits env self id state fs).2).1
      = (Lights.setLightState bits env self id state fs).1 ∧
    (Lights.setLightState bits env self id state
        (Lights.setLightState bits env self id state fs).2).2.content
      = (Lights.setLightState bits env self id state fs).2.content := by
  by_cases h : self.lights.length ≤ toSizeT bits id
  · simp [Lights.setLightState, h]
  · simp only [Lights.setLightState, dif_neg h]
    generalize self.lights.get ⟨toSizeT bits id, Nat.lt_of_not_le h⟩ = light
    cases light with
    | light l => exact ⟨rfl, rfl⟩
    | led l => exact led_apply_twice env l state fs

/-! ## Discovery -/

/-- `strncmp("led", name, 3) == 0` says that the name begins with `led`. -/
theorem starts_with_led_iff (name : String) :
    strncmpEq "led".data name.data 3 = true ↔ ∃ rest : String, name = "led" ++ rest := by
  obtain ⟨cs⟩ := name
  constructor
  · intro h
    match cs, h with
    | a :: b :: c :: r, h =>
      simp [strncmpEq] at h
      obtain ⟨h1, h2, h3⟩ := h
      subst h1 h2 h3
      exact ⟨⟨r⟩, by apply String.ext; simp⟩
    | [], h => simp [strncmpEq] at h
    | [a], h => simp [strncmpEq] at h
    | [a, b], h => simp [strncmpEq] at h
  · rintro ⟨⟨r⟩, h⟩
    have h2 := congrArg String.data h
    simp at h2
    subst h2
    simp [strncmpEq]

/-- The first character of the name is a dot exactly when the name begins with a dot. -/
theorem starts_with_dot_iff (name : String) :
    cstrHead name.data = '.' ↔ ∃ rest : String, name = "." ++ rest := by
  obtain ⟨cs⟩ := name
  constructor
  · intro h
    match cs, h with
    | a :: r, h =>
      simp [cstrHead] at h
      subst h
      exact ⟨⟨r⟩, by apply String.ext; simp⟩
    | [], h => exact absurd h (by decide)
  · rintro ⟨⟨r⟩, h⟩
    have h2 := congrArg String.data h
    simp at h2
    subst h2
    simp [cstrHead]

/-- The test of the scan, in words. -/
theorem isCandidate_iff (ent : dirent) :
    isCandidate ent = true ↔
      (ent.d_type = DType.DT_DIR ∧ ¬ ∃ rest : String, ent.d_name = "." ++ rest) ∨
      (ent.d_type = DType.DT_LNK ∧ ∃ rest : String, ent.d_name = "led" ++ rest) := by
  rw [← starts_with_dot_iff, ← starts_with_led_iff]
  simp [isCandidate]

/-- Candidate paths of a listing, entry by entry. -/
theorem candidatePaths_cons (ent : dirent) (ents : List dirent) :
    candidatePaths (ent :: ents) =
      if isCandidate ent then (LEDS_DIR ++ "/" ++ ent.d_name) :: candidatePaths ents
      else candidatePaths ents := by
  unfold candidatePaths
  cases h : isCandidate ent <;> simp [List.filter, h]

/-- The loop of the scan from any intermediate state with both counters at `n`. -/
theorem foldl_visit (env : Sysfs) (ents : List dirent) (s : Scan) (n : Nat)
    (hid : s.id = n) (hord : s.ordinal = n) :
    (ents.foldl (Lights.visit env) s).lights
      = s.lights ++ ((candidatePaths ents).enumFrom n).filterMap (yieldOf env) ∧
    (ents.foldl (Lights.visit env) s).tried = s.tried ++ candidatePaths ents := by
  induction ents generalizing s n with
  | nil => simp [candidatePaths]
  | cons ent ents ih =>
    rw [List.foldl_cons, candidatePaths_cons]
    cases hc : isCandidate ent with
    | false =>
      have hv : Lights.visit env s ent = s := by simp [Lights.visit, hc]
      rw [hv]
      simpa using ih s n hid hord
    | true =>
      cases hl : Led.createLed env { id := s.id, ordinal := s.ordinal, type := LightType.MICROPHONE }
          (LEDS_DIR ++ "/" ++ ent.d_name) with
      | none =>
        have hv : Lights.visit env s ent =
            { s with id := s.id + 1, ordinal := s.ordinal + 1,
                     tried := s.tried ++ [LEDS_DIR ++ "/" ++ ent.d_name] } := by
          simp [Lights.visit, hc, hl]
        rw [hv]
        have := ih (Scan.mk (s.id + 1) (s.ordinal + 1) s.lights
          (s.tried ++ [LEDS_DIR ++ "/" ++ ent.d_name])) (n + 1) (by simp [hid]) (by simp [hord])
        rw [hid, hord] at hl
        simp [this, List.enumFrom, yieldOf, hl]
      | some led =>
        have hv : Lights.visit env s ent =
            { id := s.id + 1, ordinal := s.ordinal + 1,
              lights := s.lights ++ [LightPtr.led led],
              tried := s.tried ++ [LEDS_DIR ++ "/" ++ ent.d_name] } := by
          simp [Lights.visit, hc, hl]
        rw [hv]
        have := ih (Scan.mk (s.id + 1) (s.ordinal + 1) (s.lights ++ [LightPtr.led led])
          (s.tried ++ [LEDS_DIR ++ "/" ++ ent.d_name])) (n + 1) (by simp [hid]) (by simp [hord])
        rw [hid, hord] at hl
        simp [this, List.enumFrom, yieldOf, hl]

/-- Paths of the lights built from numbered candidate paths. -/
theorem yield_paths (env : Sysfs) (l : List (Nat × String)) :
    (l.filterMap (yieldOf env)).map LightPtr.path
      = (l.map Prod.snd).filter (fun p => (env.readable (p ++ "/max_brightness")).isSome) := by
  induction l with
  | nil => rfl
  | cons ip l ih =>
    cases h : env.readable (ip.2 ++ "/max_brightness") <;>
      simp [List.filterMap_cons, yieldOf, Led.createLed, h, ih, LightPtr.path]

/-- Identity records of the lights built from numbered candidate paths: id and
ordinal are the number of the candidate, kept or not, among the candidates. -/
theorem yield_hwLights (env : Sysfs) (l : List (Nat × String)) :
    (l.filterMap (yieldOf env)).map LightPtr.hwLight
      = (l.filter (fun ip => (env.readable (ip.2 ++ "/max_brightness")).isSome)).map
          (fun ip => { id := (ip.1 : Int), ordinal := (ip.1 : Int), type := LightType.MICROPHONE }) := by
  induction l with
  | nil => rfl
  | cons ip l ih =>
    cases h : env.readable (ip.2 ++ "/max_brightness") <;>
      simp [List.filterMap_cons, yieldOf, Led.createLed, h, ih, LightPtr.hwLight]

/-- The vector the constructor builds. -/
theorem Lights_lights (env : Sysfs) (ents : List dirent) :
    (Lights.Lights env (some ents)).lights = ((candidatePaths ents).enum).filterMap (yieldOf env) := by
  have := (foldl_visit env ents { id := 0, ordinal := 0, lights := [], tried := [] } 0 rfl rfl).1
  simpa [Lights.Lights, Lights.scan, List.enum] using this

/-- C10: an entry passes the test of the scan exactly when it is a directory
whose name does not begin with a dot, or a symbolic link whose name begins
with `led`; the paths handed to `Led::createLed` are, in listing order, the
device root joined by `/` with the name of each entry passing the test; and
every light of the controller stems from such an entry. -/
theorem discovery_candidates (env : Sysfs) (ents : List dirent) :
    (∀ ent : dirent, isCandidate ent = true ↔
      (ent.d_type = DType.DT_DIR ∧ ¬ ∃ rest : String, ent.d_name = "." ++ rest) ∨
      (ent.d_type = DType.DT_LNK ∧ ∃ rest : String, ent.d_name = "led" ++ rest)) ∧
    (Lights.scan env (some ents)).tried
      = (ents.filter isCandidate).map (fun ent => LEDS_DIR ++ "/" ++ ent.d_name) ∧
    (∀ l ∈ (Lights.Lights env (some ents)).lights,
      ∃ ent ∈ ents, isCandidate ent = true ∧ l.path = LEDS_DIR ++ "/" ++ ent.d_name) := by
  refine ⟨isCandidate_iff, ?_, ?_⟩
  · have h := (foldl_visit env ents { id := 0, ordinal := 0, lights := [], tried := [] } 0
      rfl rfl).2
    simpa [Lights.scan, candidatePaths] using h
  · intro l hl
    have hp : l.path ∈ (Lights.Lights env (some ents)).lights.map LightPtr.path :=
      List.mem_map_of_mem _ hl
    rw [Lights_lights, yield_paths, List.enum_map_snd] at hp
    have hc := (List.mem_filter.1 hp).1
    unfold candidatePaths at hc
    obtain ⟨ent, hent, hpath⟩ := List.mem_map.1 hc
    exact ⟨ent, (List.mem_filter.1 hent).1, (List.mem_filter.1 hent).2, hpath.symm⟩

/-- C2, as stated, fails: `max_brightness` of `led1` opens and holds `abc`,
the extraction of an unsigned integer fails, and `led1` is a light of the
controller all the same (with `maxBrightness` 0). -/
theorem discovery_keeps_unparsable :
    envTwoLeds.readable "/sys/class/leds/led1/max_brightness" = some "abc" ∧
    (extractUInt32 envTwoLeds.indeterminate "abc").2 = false ∧
    (Lights.Lights envTwoLeds (some listingTwoLeds)).lights =
      [LightPtr.led { hwLight := { id := 1, ordinal := 1, type := LightType.MICROPHONE },
                      path := "/sys/class/leds/led1", maxBrightness := 0 }] ∧
    (Lights.Lights envTwoLeds (some listingTwoLeds)).getLights =
      [{ id := 1, ordinal := 1, type := LightType.MICROPHONE }] := by
  decide

/-- C2, amended: the lights of the controller are exactly the candidates whose
`max_brightness` file opens, in listing order, whatever the file holds; a
candidate whose file does not open is left out and the entries after it are
still processed; `getLights` returns one record per kept candidate. -/
theorem discovery_keeps_openable (env : Sysfs) (ents : List dirent) :
    (Lights.Lights env (some ents)).lights.map LightPtr.path
      = (candidatePaths ents).filter
          (fun p => (env.readable (p ++ "/max_brightness")).isSome) ∧
    (Lights.Lights env (some ents)).getLights
      = (Lights.Lights env (some ents)).lights.map LightPtr.hwLight ∧
    (Lights.Lights env (some ents)).getLights.length
      = ((candidatePaths ents).filter
          (fun p => (env.readable (p ++ "/max_brightness")).isSome)).length := by
  have hpaths : (Lights.Lights env (some ents)).lights.map LightPtr.path
      = (candidatePaths ents).filter
          (fun p => (env.readable (p ++ "/max_brightness")).isSome) := by
    rw [Lights_lights, yield_paths, List.enum_map_snd]
  refine ⟨hpaths, rfl, ?_⟩
  rw [← hpaths]
  simp [Lights.getLights]

/-- C1 on a listing whose first candidate `led0` has no `max_brightness`: the
only light, `led1`, reports id 1 at position 0; `setLightState(1, ...)` fails
without touching a file, and `setLightState(0, ...)` drives `led1`. -/
theorem discovery_id_gap :
    (Lights.Lights envAllOpen (some listingTwoLeds)).getLights =
      [{ id := 1, ordinal := 1, type := LightType.MICROPHONE }] ∧
    (Lights.Lights envAllOpen (some listingTwoLeds)).lights.map LightPtr.path =
      ["/sys/class/leds/led1"] ∧
    (Lights.setLightState 64 envAllOpen (Lights.Lights envAllOpen (some listingTwoLeds)) 1
        stateOff filesOld).1 = ScopedAStatus.fromExceptionCode EX_UNSUPPORTED_OPERATION ∧
    (Lights.setLightState 64 envAllOpen (Lights.Lights envAllOpen (some listingTwoLeds)) 1
        stateOff filesOld).2.log = [] ∧
    (Lights.setLightState 64 envAllOpen (Lights.Lights envAllOpen (some listingTwoLeds)) 0
        stateOff filesOld).2.log =
      [IoEvent.openWrite "/sys/class/leds/led1/trigger" true,
       IoEvent.write "/sys/class/leds/led1/trigger" "none" true,
       IoEvent.openWrite "/sys/class/leds/led1/brightness" true,
       IoEvent.write "/sys/class/leds/led1/brightness" "0" true] := by
  decide
